import Mathlib

/-!
Shallow embedding of the SCP label-maker compositing core
(`src/core/noise_generator.rs`, `src/core/label_composer.rs`,
`src/core/image_processor.rs`, `src/core/text_renderer.rs`,
`src/core/asset_manager.rs`, `src/models/*`).

Modelling conventions:
* `u8` pixel channels are `ℕ` (values in `[0,255]` by construction of the
  packing function `sat255`); `u32` quantities are `ℕ`, with wrapping
  arithmetic written explicitly as `% 2^32` where the Rust source performs
  a plain `+` on `u32` (release-profile wrapping semantics).
* `f32`/`f64` arithmetic is idealised over `ℚ`.  Transcendental or
  external-library primitives that the claims do not compute through
  (`f32::powf`, the `noise` crate's seeded Perlin/Worley samplers, font
  metrics, glyph rasterisation, Lanczos resampling, alpha-compositing
  `overlay`, image decoding) are fields of an explicit environment
  structure `ExtOps`; every theorem quantifies over the environment, and
  witnesses instantiate it with concrete computable values.
* Rust `as u8` saturating float casts are `sat255`, `as u32` casts are
  `natOfRat`, `as i32` casts are `rtrunc` (truncation toward zero).
* Images are dimensions plus a total pixel function; the Rust buffers are
  defined exactly on the in-bounds coordinates, and every per-pixel loop in
  the source is a pointwise map, so the pixel function records the loop
  body applied at each coordinate.
-/

/-- Truncation of a rational toward zero, the semantics of Rust's
`as i32` cast from a float (in-range values). -/
def rtrunc (q : ℚ) : ℤ :=
  if 0 ≤ q then ⌊q⌋ else -⌊-q⌋

/-- Rust's saturating `f32 as u8` cast (also the composition
`.clamp(0.0, 255.0)` followed by `as u8` used in the noise layers):
negative values go to 0, values above 255 go to 255, otherwise truncate. -/
def sat255 (q : ℚ) : ℕ :=
  if q ≤ 0 then 0 else min 255 ⌊q⌋.toNat

/-- Rust's saturating `f32 as u32` cast for nonnegative in-range values. -/
def natOfRat (q : ℚ) : ℕ :=
  if q ≤ 0 then 0 else ⌊q⌋.toNat

/-- An RGBA pixel, channels in `[0,255]`. -/
structure Pix where
  r : ℕ
  g : ℕ
  b : ℕ
  a : ℕ
deriving DecidableEq

/-- An RGBA image (`image::RgbaImage`): dimensions plus pixel function. -/
structure Img where
  w : ℕ
  h : ℕ
  pix : ℕ → ℕ → Pix

/-- A grayscale image (`image::GrayImage`): dimensions plus a single
channel per pixel. -/
structure GImg where
  w : ℕ
  h : ℕ
  pix : ℕ → ℕ → ℕ

/-- Text is modelled as its list of Unicode scalar values (Rust `char`s
as their code points), so the text pipeline stays kernel-computable. -/
abbrev Str := List ℕ

/-- `str::replace("\\n", "\n")` specialised to the two-character pattern
backslash-`n` (code points 92, 110): replace each leftmost
non-overlapping occurrence with a newline (code point 10). -/
def replace_escaped_newline : Str → Str
  | [] => []
  | [c] => [c]
  | c1 :: c2 :: rest =>
    if c1 = 92 ∧ c2 = 110 then 10 :: replace_escaped_newline rest
    else c1 :: replace_escaped_newline (c2 :: rest)

/-- `str::split('\n')`: split at every newline, keeping empty pieces
(so a trailing newline yields a final empty piece). -/
def split_newlines : Str → List Str
  | [] => [[]]
  | c :: rest =>
    let r := split_newlines rest
    if c = 10 then [] :: r
    else
      match r with
      | [] => [[c]]
      | piece :: rs => (c :: piece) :: rs

/-- Rust `char::is_whitespace`, restricted to the ASCII whitespace code
points (space, tab, newline, carriage return) that can occur in the
label-maker's single-line input fields. -/
def is_space (c : ℕ) : Bool :=
  c = 32 ∨ c = 9 ∨ c = 10 ∨ c = 13

/-- `str::trim`: drop leading and trailing whitespace. -/
def trim_chars (s : Str) : Str :=
  ((s.dropWhile is_space).reverse.dropWhile is_space).reverse

/-- The reference string `"Hg"` whose measured height is the glyph height
used by `render_text`. -/
def strHg : Str := [72, 103]

/-- `BurnType` from `src/models` (declared there in the full repository;
its two variants are fixed by the `match` in `generate_burn_mask`). -/
inductive BurnType where
  | Perlin
  | Patches
deriving DecidableEq

/-- `ClassType` from `src/models/class_type.rs`. -/
inductive ClassType where
  | Safe
  | Euclid
  | EuclidPotentialKeter
  | Keter
  | Apollyon
  | Thaumiel
  | Neutralized
  | Explained
deriving DecidableEq

/-- `Hazard` from `src/models/hazard.rs`. -/
inductive Hazard where
  | AutonomousObject
  | BiologicalHazard
  | Cognitohazard
  | ElectricShock
  | ExistentialThreat
  | InconsistentTopology
  | IndirectInjuryHazard
  | MemeticHazard
  | NonstandardSpacetime
  | Shapeshifting
  | RadioactivityHazard
  | SelfReplicating
  | SentientViolent
  | SentientObject
deriving DecidableEq

/-- `ResizeMethod` from `src/models/label_config.rs`. -/
inductive ResizeMethod where
  | CropToFit
  | Stretch
  | Letterbox
deriving DecidableEq

/-- `OutputFormat` from `src/models/label_config.rs`. -/
inductive OutputFormat where
  | Png
  | Jpeg
deriving DecidableEq

/-- `SerializableColor` from `src/models/label_config.rs` (unit-interval
`f32` channels, idealised over `ℚ`). -/
structure SerializableColor where
  r : ℚ
  g : ℚ
  b : ℚ
  a : ℚ

/-- `LabelConfig` from `src/models/label_config.rs`.  The burn-parameter
fields are declared in the full repository's `LabelConfig` (this snapshot
of `label_config.rs` omits them, but they are read by
`generate_burn_mask` and written by `app.rs`/`main.rs`, which fixes their
names and types); `image_path` is the path string of the `Option<PathBuf>`
field. -/
structure LabelConfig where
  scp_number : Str
  object_class_text : Str
  class_type : ClassType
  use_alternate_style : Bool
  image_path : Option String
  resize_method : ResizeMethod
  selected_hazard : Option Hazard
  apply_texture : Bool
  texture_opacity : ℚ
  output_resolution : ℕ
  output_format : OutputFormat
  output_quality : ℕ
  brightness : ℚ
  contrast : ℚ
  grayscale : Bool
  scp_number_font_size : ℚ
  object_class_font_size : ℚ
  scp_text_offset : ℚ × ℚ
  class_text_offset : ℚ × ℚ
  scp_text_color : SerializableColor
  class_text_color : SerializableColor
  scp_line_spacing : ℚ
  class_line_spacing : ℚ
  apply_burn : Bool
  burn_type : BurnType
  burn_amount : ℚ
  burn_scale : ℚ
  burn_detail : ℚ
  burn_edge_softness : ℚ
  burn_irregularity : ℚ
  burn_char : ℚ
  burn_seed : ℕ
  burn_scale_multiplier : ℚ
  burn_detail_blend : ℚ
  burn_turbulence_freq : ℚ
  burn_turbulence_strength : ℚ

/-- The environment of external primitives the core calls into:
the `noise` crate's seeded samplers (`Perlin::new(seed).get`,
`Worley::new(seed).get` — deterministic pure functions of seed and
coordinates), `f32::powf`, `imageproc`'s `text_size` (per font scale),
`draw_text_mut`, the `image` crate's Lanczos resampler and
alpha-compositing `overlay`, the image decoder behind `image::open`, and
the `DynamicImage` adjustment methods. -/
structure ExtOps where
  perlinGet : ℕ → List ℚ → ℚ
  worleyGet : ℕ → List ℚ → ℚ
  powf : ℚ → ℚ → ℚ
  textSize : ℚ → Str → ℤ × ℤ
  drawText : Pix → ℤ → ℤ → ℚ → Str → Img → Img
  resamplePix : Img → ℕ → ℕ → ℕ → ℕ → Pix
  overlayPix : Img → Img → ℤ → ℤ → ℕ → ℕ → Pix
  openImage : String → Except String Img
  grayscaleImg : Img → Img
  adjustContrast : ℚ → Img → Img
  brighten : ℤ → Img → Img

/-- `image::imageops::resize(img, nw, nh, Lanczos3)`: the output buffer
always has exactly the requested dimensions; pixel content comes from the
external resampler. -/
def imageops_resize (ext : ExtOps) (img : Img) (nw nh : ℕ) : Img :=
  ⟨nw, nh, ext.resamplePix img nw nh⟩

/-- `image::imageops::overlay(bottom, top, x, y)`: composites `top` onto
`bottom` in place, so the result keeps `bottom`'s dimensions; pixel
content comes from the external compositor. -/
def imageops_overlay (ext : ExtOps) (bottom top : Img) (x y : ℤ) : Img :=
  ⟨bottom.w, bottom.h, ext.overlayPix bottom top x y⟩

/-- `generate_perlin_layer` from `src/core/noise_generator.rs` (lines
69-80): sample the seeded Perlin field at `(x/w*scale, y/h*scale,
seed_offset)` and pack `(raw + 1) / 2 * 255` clamped to a byte. -/
def generate_perlin_layer (ext : ExtOps) (seed : ℕ) (width height : ℕ)
    (scale : ℚ) (seed_offset : ℕ) : GImg :=
  ⟨width, height, fun x y =>
    let nx : ℚ := (x : ℚ) / (width : ℚ) * scale
    let ny : ℚ := (y : ℚ) / (height : ℚ) * scale
    sat255 ((ext.perlinGet seed [nx, ny, (seed_offset : ℚ)] + 1) / 2 * 255)⟩

/-- `generate_worley_layer` from `src/core/noise_generator.rs` (lines
46-67): optional Perlin turbulence distortion of the sample coordinates,
then the seeded Worley field packed to a byte.  `wseed` seeds the Worley
sampler, `pseed` the turbulence Perlin sampler. -/
def generate_worley_layer (ext : ExtOps) (wseed pseed : ℕ) (width height : ℕ)
    (scale : ℚ) (detail turbulence_freq turbulence_strength : ℚ) : GImg :=
  let detail_strength := detail * turbulence_strength
  ⟨width, height, fun x y =>
    let nx : ℚ := (x : ℚ) / (width : ℚ) * scale
    let ny : ℚ := (y : ℚ) / (height : ℚ) * scale
    let distortion :=
      if turbulence_freq > 1 / 1000 then
        ext.perlinGet pseed [nx * turbulence_freq, ny * turbulence_freq]
      else 0
    let distorted_x := nx + distortion * detail_strength
    let distorted_y := ny + distortion * detail_strength
    sat255 ((ext.worleyGet wseed [distorted_x, distorted_y] + 1) / 2 * 255)⟩

/-- `blend_images` from `src/core/noise_generator.rs` (lines 113-126):
per-pixel linear blend `base*(1-alpha) + overlay*alpha`, clamped and
packed; the output is a clone of `base`, so it keeps `base`'s
dimensions. -/
def blend_images (base overlay : GImg) (alpha : ℚ) : GImg :=
  ⟨base.w, base.h, fun x y =>
    sat255 ((base.pix x y : ℚ) * (1 - alpha) + (overlay.pix x y : ℚ) * alpha)⟩

/-- The `match config.burn_type` block of `generate_burn_mask`
(`src/core/noise_generator.rs` lines 8-22), producing the raw noise field
before per-pixel post-processing.  The Patches branch seeds the
turbulence Perlin sampler with `burn_seed + 1`, a `u32` addition, hence
the explicit wrap `% 2^32`. -/
def burn_noise (ext : ExtOps) (config : LabelConfig) (width height : ℕ) : GImg :=
  match config.burn_type with
  | BurnType.Perlin =>
    let base_scale := config.burn_scale * config.burn_scale_multiplier
    let base := generate_perlin_layer ext config.burn_seed width height base_scale 0
    let detail_scale := base_scale * config.burn_detail * config.burn_scale_multiplier
    let detail := generate_perlin_layer ext config.burn_seed width height detail_scale 1
    blend_images base detail config.burn_detail_blend
  | BurnType.Patches =>
    generate_worley_layer ext config.burn_seed ((config.burn_seed + 1) % 2 ^ 32)
      width height config.burn_scale config.burn_detail
      config.burn_turbulence_freq config.burn_turbulence_strength

/-- `generate_burn_mask` from `src/core/noise_generator.rs` (lines 6-44).
`rnd` is the stream of `rand::random::<f32>()` draws, one per pixel in
row-major order (`y * width + x`), each a value in `[0,1)`.  The loop
reads each pixel once and writes it back, so it is a pointwise map:
normalize to `[0,1]`, edge-softness power curve, unseeded jitter, clamp,
char power curve, scale by `burn_amount`, repack to a byte. -/
def generate_burn_mask (ext : ExtOps) (rnd : ℕ → ℚ) (config : LabelConfig)
    (width height : ℕ) : GImg :=
  let burn := burn_noise ext config width height
  ⟨burn.w, burn.h, fun x y =>
    let val0 : ℚ := (burn.pix x y : ℚ) / 255
    let softness_exponent := 1 + config.burn_edge_softness * 4
    let val1 := ext.powf val0 softness_exponent
    let val2 := val1 + (rnd (y * width + x) - 1 / 2) * config.burn_irregularity
    let val3 := max 0 (min 1 val2)
    let char_power := 1 - config.burn_char * (9 / 10)
    let val4 := ext.powf val3 char_power
    let val5 := val4 * config.burn_amount
    sat255 (val5 * 255)⟩

/-- `LABEL_SIZE` from `src/models/layout.rs`. -/
def LABEL_SIZE : ℕ := 512

/-- `Rectangle` from `src/models/layout.rs`. -/
structure Rectangle where
  x : ℕ
  y : ℕ
  width : ℕ
  height : ℕ

/-- `Alignment` from `src/models/layout.rs` (named `TextAlign` here to avoid clashing with a Mathlib name). -/
inductive TextAlign where
  | Left
  | Center
  | Right
  | CenterLeft
deriving DecidableEq

/-- `TextRegion` from `src/models/layout.rs`. -/
structure TextRegion where
  x : ℕ
  y : ℕ
  max_width : ℕ
  alignment : TextAlign

/-- `CommonLayout::SCP_NUMBER`. -/
def CommonLayout.SCP_NUMBER : TextRegion := ⟨113, 165, 240, TextAlign.Left⟩

/-- `CommonLayout::OBJECT_CLASS_TEXT`. -/
def CommonLayout.OBJECT_CLASS_TEXT : TextRegion := ⟨304, 226, 150, TextAlign.Left⟩

/-- `AlternateLayout::SCP_NUMBER`. -/
def AlternateLayout.SCP_NUMBER : TextRegion := ⟨268, 167, 150, TextAlign.Left⟩

/-- `AlternateLayout::OBJECT_CLASS_TEXT`. -/
def AlternateLayout.OBJECT_CLASS_TEXT : TextRegion := ⟨347, 226, 150, TextAlign.Left⟩

/-- `NormalLayout::USER_IMAGE`. -/
def NormalLayout.USER_IMAGE : Rectangle := ⟨264, 256, 233, 240⟩

/-- `NormalLayout::HAZARD_ICON`. -/
def NormalLayout.HAZARD_ICON : Rectangle := ⟨15, 256, 233, 240⟩

/-- `AlternateLayout::HAZARD_ICON`. -/
def AlternateLayout.HAZARD_ICON : Rectangle := ⟨137, 256, 233, 240⟩

/-- `LabelError` from `src/utils/error.rs` (the `Io` variant is named
`IoErr` here because of Lean naming constraints). -/
inductive LabelError where
  | ImageLoading (msg : String)
  | ImageProcessing (msg : String)
  | ImageSaving (msg : String)
  | AssetLoading (msg : String)
  | TextRendering (msg : String)
  | IoErr (msg : String)
  | NoImageSelected
  | ConfigLoading (msg : String)
  | InvalidImageFormat
deriving DecidableEq

/-- `DynamicImage::crop_imm` from the `image` crate: the crop rectangle is
clamped to the source bounds (`x = min(x, w)`, `y = min(y, h)`, then
`width = min(width, w - x)`, `height = min(height, h - y)`), and the view
reads the source shifted by the clamped origin. -/
def crop_imm (img : Img) (x y width height : ℕ) : Img :=
  let cx := min x img.w
  let cy := min y img.h
  let cw := min width (img.w - cx)
  let ch := min height (img.h - cy)
  ⟨cw, ch, fun px py => img.pix (cx + px) (cy + py)⟩

/-- `RgbaImage::from_pixel(w, h, p)`. -/
def from_pixel (width height : ℕ) (p : Pix) : Img :=
  ⟨width, height, fun _ _ => p⟩

/-- `ImageProcessor::crop_to_fit` from `src/core/image_processor.rs`
(lines 18-39).  The `f32` aspect-ratio comparison is idealised as the
exact rational comparison; the crop rectangle arithmetic is `u32`
(truncating division, borrow-free subtraction in the branch taken). -/
def crop_to_fit (ext : ExtOps) (image : Img) (target_w target_h : ℕ) : Img :=
  let img_w := image.w
  let img_h := image.h
  let img_aspect : ℚ := (img_w : ℚ) / (img_h : ℚ)
  let target_aspect : ℚ := (target_w : ℚ) / (target_h : ℚ)
  let cropdims : ℕ × ℕ :=
    if img_aspect > target_aspect then (img_h * target_w / target_h, img_h)
    else (img_w, img_w * target_h / target_w)
  let crop_w := cropdims.1
  let crop_h := cropdims.2
  let x := (img_w - crop_w) / 2
  let y := (img_h - crop_h) / 2
  let cropped := crop_imm image x y crop_w crop_h
  imageops_resize ext cropped target_w target_h

/-- `ImageProcessor::stretch` from `src/core/image_processor.rs`
(lines 41-48). -/
def stretch (ext : ExtOps) (image : Img) (target_w target_h : ℕ) : Img :=
  imageops_resize ext image target_w target_h

/-- `ImageProcessor::letterbox` from `src/core/image_processor.rs`
(lines 50-75): scale uniformly to fit, paste centered on a white
`target_w × target_h` background. -/
def letterbox (ext : ExtOps) (image : Img) (target_w target_h : ℕ) : Img :=
  let img_w := image.w
  let img_h := image.h
  let img_aspect : ℚ := (img_w : ℚ) / (img_h : ℚ)
  let target_aspect : ℚ := (target_w : ℚ) / (target_h : ℚ)
  let scaledims : ℕ × ℕ :=
    if img_aspect > target_aspect then (target_w, natOfRat ((target_w : ℚ) / img_aspect))
    else (natOfRat ((target_h : ℚ) * img_aspect), target_h)
  let scale_w := scaledims.1
  let scale_h := scaledims.2
  let scaled := imageops_resize ext image scale_w scale_h
  let result := from_pixel target_w target_h ⟨255, 255, 255, 255⟩
  let x := (target_w - scale_w) / 2
  let y := (target_h - scale_h) / 2
  imageops_overlay ext result scaled (x : ℤ) (y : ℤ)

/-- `ImageProcessor::process_user_image` from
`src/core/image_processor.rs` (lines 7-16). -/
def process_user_image (ext : ExtOps) (image : Img) (method : ResizeMethod)
    (rect : Rectangle) : Img :=
  match method with
  | ResizeMethod.CropToFit => crop_to_fit ext image rect.width rect.height
  | ResizeMethod.Stretch => stretch ext image rect.width rect.height
  | ResizeMethod.Letterbox => letterbox ext image rect.width rect.height

/-- The sequence of `draw_text_mut` calls issued by
`TextRenderer::render_text` (`src/core/text_renderer.rs` lines 23-69),
as `(line, x, y)` triples in order.  Mirrors the source exactly: empty
input draws nothing; the literal `\n` marker is replaced by a newline and
the text split on newlines; a whitespace-only line is skipped when there
is more than one line; the block height counts every split line; each
line's vertical slot uses its original index. -/
def render_text_draws (ext : ExtOps) (text : Str) (region : TextRegion)
    (font_size : ℚ) (offset : ℚ × ℚ) (line_spacing_multiplier : ℚ) :
    List (Str × ℤ × ℤ) :=
  if text = [] then []
  else
    let processed_text := replace_escaped_newline text
    let lines := split_newlines processed_text
    let glyph_height := (ext.textSize font_size strHg).2
    let line_spacing := rtrunc ((glyph_height : ℚ) * line_spacing_multiplier)
    let total_block_height :=
      if lines.length > 1 then ((lines.length : ℤ) - 1) * line_spacing + glyph_height
      else glyph_height
    lines.enum.filterMap fun p =>
      if trim_chars p.2 = [] ∧ lines.length > 1 then none
      else
        let text_w := (ext.textSize font_size p.2).1
        let xa : ℤ :=
          match region.alignment with
          | TextAlign.Left => (region.x : ℤ)
          | TextAlign.Center =>
              ((region.x + region.max_width / 2 : ℕ) : ℤ) - Int.tdiv text_w 2
          | TextAlign.Right => ((region.x + region.max_width : ℕ) : ℤ) - text_w
          | TextAlign.CenterLeft => (region.x : ℤ)
        let x := xa + rtrunc offset.1
        let y := ((region.y : ℤ) - Int.tdiv total_block_height 2)
          + (p.1 : ℤ) * line_spacing + rtrunc offset.2
        some (p.2, x, y)

/-- `TextRenderer::render_text` acting on the canvas: fold the draw
sequence through the external glyph rasteriser (`draw_text_mut`). -/
def render_text (ext : ExtOps) (canvas : Img) (text : Str)
    (region : TextRegion) (color : Pix) (font_size : ℚ) (offset : ℚ × ℚ)
    (line_spacing_multiplier : ℚ) : Img :=
  (render_text_draws ext text region font_size offset line_spacing_multiplier).foldl
    (fun cv d => ext.drawText color d.2.1 d.2.2 font_size d.1 cv) canvas

/-- `AssetManager` from `src/core/asset_manager.rs` (the in-memory asset
store; `SerializableRgbaImage` values are identified with their decoded
images). -/
structure AssetManager where
  templates : ClassType → Option (Img × Img)
  hazard_icons : ClassType → Hazard → Option Img
  texture_overlay : Img
  placeholder : Img

/-- `AssetManager::get_template` (lines 154-159): fall back to the
transparent placeholder when the class has no template entry. -/
def AssetManager.get_template (assets : AssetManager) (class_type : ClassType)
    (alternate : Bool) : Img :=
  match assets.templates class_type with
  | some pa => if alternate then pa.2 else pa.1
  | none => assets.placeholder

/-- `AssetManager::get_hazard_icon` (lines 161-165): fall back to the
transparent placeholder when the `(class, hazard)` icon is missing. -/
def AssetManager.get_hazard_icon (assets : AssetManager)
    (class_type : ClassType) (hazard : Hazard) : Img :=
  (assets.hazard_icons class_type hazard).getD assets.placeholder

/-- `AssetManager::get_texture` (lines 167-169). -/
def AssetManager.get_texture (assets : AssetManager) : Img :=
  assets.texture_overlay

/-- The `Rgba([...])` color conversion used in `LabelComposer`:
each unit-interval channel times 255, saturating-cast to `u8`, with a
fully opaque alpha. -/
def colorToRgba (c : SerializableColor) : Pix :=
  ⟨sat255 (c.r * 255), sat255 (c.g * 255), sat255 (c.b * 255), 255⟩

/-- The per-channel blend closure inside `LabelComposer::apply_texture`
(`src/core/label_composer.rs` lines 162-164): `u16` arithmetic, exact in
`ℕ` since `c, t, alpha ≤ 255` keeps the numerator below `2^16`. -/
def texture_blend (alpha c t : ℕ) : ℕ :=
  (c * (255 - alpha) + t * alpha) / 255

/-- `LabelComposer::apply_texture` (`src/core/label_composer.rs` lines
158-171): for every canvas pixel whose coordinate is inside the texture
(`get_pixel_checked`), blend R, G and B with the texture's channels at
`alpha = (opacity * 255.0) as u8`, leaving the alpha channel as is;
canvas pixels outside the texture's bounds are untouched. -/
def apply_texture (canvas texture : Img) (opacity : ℚ) : Img :=
  let alpha := sat255 (opacity * 255)
  ⟨canvas.w, canvas.h, fun x y =>
    if x < canvas.w ∧ y < canvas.h ∧ x < texture.w ∧ y < texture.h then
      let c := canvas.pix x y
      let t := texture.pix x y
      ⟨texture_blend alpha c.r t.r, texture_blend alpha c.g t.g,
       texture_blend alpha c.b t.b, c.a⟩
    else canvas.pix x y⟩

/-- `LabelComposer::render_scp_number` (`src/core/label_composer.rs`
lines 78-99); note the source passes `class_line_spacing` for the SCP
number as well. -/
def render_scp_number (ext : ExtOps) (canvas : Img) (config : LabelConfig) : Img :=
  let region :=
    if config.use_alternate_style then AlternateLayout.SCP_NUMBER
    else CommonLayout.SCP_NUMBER
  render_text ext canvas config.scp_number region
    (colorToRgba config.scp_text_color) config.scp_number_font_size
    config.scp_text_offset config.class_line_spacing

/-- `LabelComposer::place_user_image` (`src/core/label_composer.rs` lines
101-130): skipped entirely for the alternate style or when no image path
is configured; otherwise decode the file (the only fallible step),
optionally grayscale, adjust contrast then brightness, fit to the user
image slot, and overlay. -/
def place_user_image (ext : ExtOps) (canvas : Img) (config : LabelConfig) :
    Except LabelError Img :=
  if config.use_alternate_style then Except.ok canvas
  else
    match config.image_path with
    | none => Except.ok canvas
    | some path =>
      match ext.openImage path with
      | Except.error e =>
          Except.error (LabelError.ImageLoading ("Failed to open user image: " ++ e))
      | Except.ok img0 =>
          let img1 := if config.grayscale then ext.grayscaleImg img0 else img0
          let img2 := ext.adjustContrast config.contrast img1
          let img3 := ext.brighten (rtrunc (config.brightness * 100)) img2
          let processed :=
            process_user_image ext img3 config.resize_method NormalLayout.USER_IMAGE
          Except.ok (imageops_overlay ext canvas processed
            (NormalLayout.USER_IMAGE.x : ℤ) (NormalLayout.USER_IMAGE.y : ℤ))

/-- `LabelComposer::place_hazards` (`src/core/label_composer.rs` lines
132-156): when a hazard is selected, fetch its icon (placeholder when
missing), resize to the style's icon rectangle and overlay. -/
def place_hazards (ext : ExtOps) (canvas : Img) (config : LabelConfig)
    (assets : AssetManager) : Img :=
  match config.selected_hazard with
  | none => canvas
  | some hazard =>
    let icon := assets.get_hazard_icon config.class_type hazard
    let rect :=
      if config.use_alternate_style then AlternateLayout.HAZARD_ICON
      else NormalLayout.HAZARD_ICON
    let resized_icon := imageops_resize ext icon rect.width rect.height
    imageops_overlay ext canvas resized_icon (rect.x : ℤ) (rect.y : ℤ)

/-- Steps 1-3 of `LabelComposer::compose` (`src/core/label_composer.rs`
lines 30-56): select the template as the initial canvas, render the SCP
number, render the object-class text. -/
def compose_text_stage (ext : ExtOps) (config : LabelConfig)
    (assets : AssetManager) : Img :=
  let canvas0 := assets.get_template config.class_type config.use_alternate_style
  let canvas1 := render_scp_number ext canvas0 config
  let object_class_region :=
    if config.use_alternate_style then AlternateLayout.OBJECT_CLASS_TEXT
    else CommonLayout.OBJECT_CLASS_TEXT
  render_text ext canvas1 config.object_class_text
    object_class_region (colorToRgba config.class_text_color)
    config.object_class_font_size config.class_text_offset
    config.class_line_spacing

/-- Steps 5-8 of `LabelComposer::compose` (`src/core/label_composer.rs`
lines 60-73): hazard icon, optional texture blend, optional final
resize. -/
def compose_finish_stage (ext : ExtOps) (config : LabelConfig)
    (assets : AssetManager) (canvas3 : Img) : Img :=
  let canvas4 := place_hazards ext canvas3 config assets
  let canvas5 :=
    if config.apply_texture then
      apply_texture canvas4 assets.get_texture config.texture_opacity
    else canvas4
  if config.output_resolution ≠ LABEL_SIZE then
    imageops_resize ext canvas5 config.output_resolution config.output_resolution
  else canvas5

/-- `LabelComposer::compose` (`src/core/label_composer.rs` lines 25-76):
template, SCP number text, object-class text, optional user image
(fallible — the only fallible step), optional hazard icon, optional
texture blend, optional final resize.  The burn parameters and
`apply_burn` are never consulted. -/
def compose (ext : ExtOps) (config : LabelConfig) (assets : AssetManager) :
    Except LabelError Img :=
  match place_user_image ext (compose_text_stage ext config assets) config with
  | Except.error e => Except.error e
  | Except.ok canvas3 => Except.ok (compose_finish_stage ext config assets canvas3)

/-- A concrete environment for witnesses: constant noise fields, identity
power curve, constant font metrics, no-op rasteriser and image
adjustments, a failing image decoder. -/
def extTriv : ExtOps where
  perlinGet := fun _ _ => 0
  worleyGet := fun _ _ => 0
  powf := fun a _ => a
  textSize := fun _ _ => (0, 0)
  drawText := fun _ _ _ _ _ img => img
  resamplePix := fun _ _ _ _ _ => ⟨0, 0, 0, 0⟩
  overlayPix := fun bottom _ _ _ x y => bottom.pix x y
  openImage := fun _ => Except.error "missing"
  grayscaleImg := id
  adjustContrast := fun _ => id
  brighten := fun _ => id

/-- Environment whose Perlin sampler returns the first sample coordinate
scaled down, so masks generated at different spatial scales differ. -/
def extScaleProbe : ExtOps :=
  { extTriv with perlinGet := fun _ coords => coords.headD 0 / 100 }

/-- Environment with fixed font metrics: every glyph row is 20 tall and a
line is 10 pixels per character wide. -/
def extMetric : ExtOps :=
  { extTriv with textSize := fun _ s => (10 * (s.length : ℤ), 20) }

/-- A concrete base configuration for witnesses (values as in
`LabelConfig::default()`). -/
def cfgBase : LabelConfig where
  scp_number := [48, 52, 56]
  object_class_text := [83, 65, 70, 69]
  class_type := ClassType.Safe
  use_alternate_style := false
  image_path := none
  resize_method := ResizeMethod.CropToFit
  selected_hazard := none
  apply_texture := false
  texture_opacity := 3 / 10
  output_resolution := 512
  output_format := OutputFormat.Png
  output_quality := 95
  brightness := 0
  contrast := 1
  grayscale := false
  scp_number_font_size := 60
  object_class_font_size := 60
  scp_text_offset := (2, -7)
  class_text_offset := (2, -7)
  scp_text_color := ⟨0, 0, 0, 1⟩
  class_text_color := ⟨0, 0, 0, 1⟩
  scp_line_spacing := 6 / 5
  class_line_spacing := 6 / 5
  apply_burn := false
  burn_type := BurnType.Perlin
  burn_amount := 35 / 100
  burn_scale := 1
  burn_detail := 1 / 2
  burn_edge_softness := 1 / 2
  burn_irregularity := 0
  burn_char := 1 / 2
  burn_seed := 42
  burn_scale_multiplier := 1
  burn_detail_blend := 1 / 2
  burn_turbulence_freq := 1
  burn_turbulence_strength := 1 / 2

/-- C1 witness configuration: zero irregularity (already so in
`cfgBase`). -/
def cfgC1 : LabelConfig := cfgBase

/-- C5 probe configuration: layered-gradient burn with
`scale = 1`, `scale_multiplier = 2`, `detail = 3`, `detail_blend = 1`. -/
def cfgC5 : LabelConfig :=
  { cfgBase with burn_type := BurnType.Perlin, burn_seed := 0,
                 burn_scale := 1, burn_scale_multiplier := 2,
                 burn_detail := 3, burn_detail_blend := 1 }

/-- C9 witness configuration: zero burn amount. -/
def cfgC9 : LabelConfig := { cfgBase with burn_amount := 0 }

/-- C10 witness configuration: Patches burn with the maximal `u32`
seed. -/
def cfgC10 : LabelConfig :=
  { cfgBase with burn_type := BurnType.Patches, burn_seed := 2 ^ 32 - 1 }

/-- A small concrete source image for witnesses. -/
def imgSmall : Img := ⟨3, 5, fun _ _ => ⟨7, 7, 7, 255⟩⟩

/-- A small concrete target rectangle for witnesses. -/
def rectSmall : Rectangle := ⟨0, 0, 8, 2⟩

/-- A left-aligned text region anchored at `y = 100` for the text-layout
probes. -/
def regionC6 : TextRegion := ⟨0, 100, 0, TextAlign.Left⟩

/-- 1×1 template whose single pixel has alpha 100. -/
def imgTemplateC7 : Img := ⟨1, 1, fun _ _ => ⟨10, 20, 30, 100⟩⟩

/-- 1×1 dirt texture whose single pixel has alpha 50. -/
def imgTextureC7 : Img := ⟨1, 1, fun _ _ => ⟨1, 2, 3, 50⟩⟩

/-- The 1×1 transparent placeholder built by `AssetManager::load_all`. -/
def imgPlaceholder : Img := ⟨1, 1, fun _ _ => ⟨0, 0, 0, 0⟩⟩

/-- Assets for the texture-blend probe: every class maps to the 1×1
template, no hazard icons, the 1×1 texture. -/
def assetsC7 : AssetManager :=
  ⟨fun _ => some (imgTemplateC7, imgTemplateC7), fun _ _ => none,
   imgTextureC7, imgPlaceholder⟩

/-- Assets with no templates and no icons. -/
def assetsTriv : AssetManager :=
  ⟨fun _ => none, fun _ _ => none, imgPlaceholder, imgPlaceholder⟩

/-- Texture-probe configuration: alternate style (no user image slot),
empty text fields, no hazard, texture enabled at opacity 1, output at the
internal size so no final resize happens. -/
def cfgC7 : LabelConfig :=
  { cfgBase with scp_number := [], object_class_text := [],
                 use_alternate_style := true, apply_texture := true,
                 texture_opacity := 1, output_resolution := 512 }

/-- Configuration pointing at a user image file (which the witness
environment fails to open). -/
def cfgC4 : LabelConfig := { cfgBase with image_path := some "photo.png" }

/-- Configuration with zero texture opacity. -/
def cfgOp0 : LabelConfig := { cfgBase with texture_opacity := 0 }

/-! The claim theorems and their witnesses follow. -/

/-- C1: with `burn_irregularity = 0`, `generate_burn_mask` is independent
of the unseeded jitter stream: two runs with the same `LabelConfig` (same
seed, type, scale, detail, softness, char, amount and advanced
parameters) but arbitrary, different random draws produce identical
masks — the jitter term is multiplied by the irregularity, so it
vanishes. -/
theorem claim_C1_burn_mask_deterministic_when_irregularity_zero
    (ext : ExtOps) (config : LabelConfig) (width height : ℕ)
    (rnd1 rnd2 : ℕ → ℚ) (hirr : config.burn_irregularity = 0) :
    generate_burn_mask ext rnd1 config width height =
      generate_burn_mask ext rnd2 config width height := by
  simp only [generate_burn_mask, hirr, mul_zero, add_zero]

/-- C1 witness: the hypothesis holds for `cfgC1` and the theorem applies
to two visibly different jitter streams. -/
theorem claim_C1_witness :
    cfgC1.burn_irregularity = 0 ∧
    generate_burn_mask extTriv (fun _ => 0) cfgC1 2 2 =
      generate_burn_mask extTriv (fun _ => 1 / 2) cfgC1 2 2 :=
  ⟨rfl, claim_C1_burn_mask_deterministic_when_irregularity_zero
    extTriv cfgC1 2 2 (fun _ => 0) (fun _ => 1 / 2) rfl⟩

/-- C9: with `burn_amount = 0`, every pixel of the generated burn mask is
0, whatever the other burn parameters, the environment and the jitter
stream are (the final per-pixel step multiplies by the amount before
packing). -/
theorem claim_C9_zero_burn_amount_blank_mask
    (ext : ExtOps) (rnd : ℕ → ℚ) (config : LabelConfig)
    (width height x y : ℕ) (hamt : config.burn_amount = 0) :
    (generate_burn_mask ext rnd config width height).pix x y = 0 := by
  simp [generate_burn_mask, hamt, sat255]

/-- C9 witness: the hypothesis holds for `cfgC9` and the mask pixel at
`(1, 2)` of a 3×3 mask evaluates to 0. -/
theorem claim_C9_witness :
    cfgC9.burn_amount = 0 ∧
    (generate_burn_mask extTriv (fun _ => 1 / 3) cfgC9 3 3).pix 1 2 = 0 :=
  ⟨rfl, claim_C9_zero_burn_amount_blank_mask extTriv (fun _ => 1 / 3) cfgC9 3 3 1 2 rfl⟩

/-- C10: the Patches branch of `generate_burn_mask` is total for every
32-bit seed: the turbulence Perlin sampler is seeded with
`burn_seed + 1` computed in `u32`, so at `burn_seed = u32::MAX` the
derived seed wraps to 0 and the function still produces a `width ×
height` mask (wrapping release-build semantics of the `+`; a debug build
would panic on this overflow instead). -/
theorem claim_C10_patches_seed_wraps_at_u32_max
    (ext : ExtOps) (rnd : ℕ → ℚ) (config : LabelConfig) (width height : ℕ)
    (ht : config.burn_type = BurnType.Patches)
    (hs : config.burn_seed = 2 ^ 32 - 1) :
    (generate_burn_mask ext rnd config width height).w = width ∧
    (generate_burn_mask ext rnd config width height).h = height ∧
    burn_noise ext config width height =
      generate_worley_layer ext (2 ^ 32 - 1) 0 width height
        config.burn_scale config.burn_detail
        config.burn_turbulence_freq config.burn_turbulence_strength := by
  have hseed : (config.burn_seed + 1) % 2 ^ 32 = 0 := by
    rw [hs]; norm_num
  refine ⟨?_, ?_, ?_⟩ <;>
    simp [generate_burn_mask, burn_noise, ht, hs, hseed, generate_worley_layer]

/-- C10 witness: `cfgC10` satisfies both hypotheses and the theorem
applies at a concrete 2×3 mask. -/
theorem claim_C10_witness :
    cfgC10.burn_type = BurnType.Patches ∧ cfgC10.burn_seed = 2 ^ 32 - 1 ∧
    ((generate_burn_mask extTriv (fun _ => 0) cfgC10 2 3).w = 2 ∧
     (generate_burn_mask extTriv (fun _ => 0) cfgC10 2 3).h = 3 ∧
     burn_noise extTriv cfgC10 2 3 =
       generate_worley_layer extTriv (2 ^ 32 - 1) 0 2 3
         cfgC10.burn_scale cfgC10.burn_detail
         cfgC10.burn_turbulence_freq cfgC10.burn_turbulence_strength) :=
  ⟨rfl, rfl, claim_C10_patches_seed_wraps_at_u32_max
    extTriv (fun _ => 0) cfgC10 2 3 rfl rfl⟩

/-- The layered-gradient combination exactly as claim C5 words it
(following the spec's §4.2, for comparison with `burn_noise`): base
octave at `burn_scale × burn_scale_multiplier`, detail octave at
`burn_scale × burn_detail × burn_scale_multiplier`, blended per-pixel
with weight `burn_detail_blend`. -/
def spec_layered_noise (ext : ExtOps) (config : LabelConfig)
    (width height : ℕ) : GImg :=
  blend_images
    (generate_perlin_layer ext config.burn_seed width height
      (config.burn_scale * config.burn_scale_multiplier) 0)
    (generate_perlin_layer ext config.burn_seed width height
      (config.burn_scale * config.burn_detail * config.burn_scale_multiplier) 1)
    config.burn_detail_blend

set_option maxHeartbeats 2000000 in
/-- C5 counterexample: with `burn_scale = 1`, `burn_scale_multiplier = 2`,
`burn_detail = 3`, `burn_detail_blend = 1` and a Perlin sampler returning
the first coordinate over 100, the code's raw layered mask at pixel
`(1, 0)` of a 2×1 mask samples the detail octave at spatial scale 12
(value 135), while the claimed `scale × detail × scale_multiplier = 6`
octave gives 131: the claim's detail-octave scale is wrong. -/
theorem claim_C5_counterexample :
    (burn_noise extScaleProbe cfgC5 2 1).pix 1 0 ≠
      (spec_layered_noise extScaleProbe cfgC5 2 1).pix 1 0 := by
  norm_num [burn_noise, spec_layered_noise, blend_images, generate_perlin_layer,
    sat255, extScaleProbe, extTriv, cfgC5, cfgBase]
  decide

/-- C5 (amended): in the layered-gradient branch the base octave is
gradient noise at spatial scale `burn_scale × burn_scale_multiplier`, the
detail octave is gradient noise at spatial scale `burn_scale ×
burn_scale_multiplier × burn_detail × burn_scale_multiplier` (the scale
multiplier enters twice, once through the base scale and once more in the
detail-scale product), and the two are combined per-pixel as
`base × (1 − detail_blend) + detail × detail_blend`. -/
theorem claim_C5_layered_gradient_octaves
    (ext : ExtOps) (config : LabelConfig) (width height x y : ℕ)
    (ht : config.burn_type = BurnType.Perlin) :
    (burn_noise ext config width height).pix x y =
      sat255
        ((sat255 ((ext.perlinGet config.burn_seed
            [(x : ℚ) / (width : ℚ) * (config.burn_scale * config.burn_scale_multiplier),
             (y : ℚ) / (height : ℚ) * (config.burn_scale * config.burn_scale_multiplier),
             0] + 1) / 2 * 255) : ℚ) * (1 - config.burn_detail_blend)
         + (sat255 ((ext.perlinGet config.burn_seed
            [(x : ℚ) / (width : ℚ) *
               (config.burn_scale * config.burn_scale_multiplier
                 * config.burn_detail * config.burn_scale_multiplier),
             (y : ℚ) / (height : ℚ) *
               (config.burn_scale * config.burn_scale_multiplier
                 * config.burn_detail * config.burn_scale_multiplier),
             1] + 1) / 2 * 255) : ℚ) * config.burn_detail_blend) := by
  simp [burn_noise, ht, blend_images, generate_perlin_layer]

/-- C5 witness: the amended octave formula applies to the concrete probe
configuration, and there evaluates to mask value 135 at pixel `(1, 0)`. -/
theorem claim_C5_witness :
    cfgC5.burn_type = BurnType.Perlin ∧
    (burn_noise extScaleProbe cfgC5 2 1).pix 1 0 = 135 :=
  ⟨rfl, (claim_C5_layered_gradient_octaves extScaleProbe cfgC5 2 1 1 0 rfl).trans
    (by norm_num [sat255, extScaleProbe, extTriv, cfgC5, cfgBase]; rfl)⟩

/-- C3: under each of the three resize policies, `process_user_image`
returns an image whose dimensions are exactly the target rectangle's:
crop-to-fit and stretch end in a resize to the target size, and letterbox
pastes onto a freshly allocated target-sized background. -/
theorem claim_C3_process_user_image_dims
    (ext : ExtOps) (image : Img) (method : ResizeMethod) (rect : Rectangle)
    (_hw : 0 < image.w) (_hh : 0 < image.h)
    (_htw : 0 < rect.width) (_hth : 0 < rect.height) :
    (process_user_image ext image method rect).w = rect.width ∧
    (process_user_image ext image method rect).h = rect.height := by
  cases method <;>
    simp [process_user_image, crop_to_fit, stretch, letterbox,
      imageops_resize, imageops_overlay, from_pixel]

/-- C3 witness: a 3×5 source into an 8×2 rectangle under the letterbox
policy. -/
theorem claim_C3_witness :
    (0 < imgSmall.w ∧ 0 < imgSmall.h ∧ 0 < rectSmall.width ∧ 0 < rectSmall.height) ∧
    (process_user_image extTriv imgSmall ResizeMethod.Letterbox rectSmall).w = rectSmall.width ∧
    (process_user_image extTriv imgSmall ResizeMethod.Letterbox rectSmall).h = rectSmall.height :=
  ⟨⟨by decide, by decide, by decide, by decide⟩,
   claim_C3_process_user_image_dims extTriv imgSmall ResizeMethod.Letterbox
     rectSmall (by decide) (by decide) (by decide) (by decide)⟩

/-- C6 counterexample: with 20-pixel glyph metrics, spacing multiplier 1,
a left-aligned region anchored at `y = 100` and zero offsets, the
two-line input `"A\n"` (code points `[65, 10]`) draws its only line at
`y = 80`, while `"A"` alone draws at `y = 90`: the empty second line is
not drawn but still consumes a vertical slot in the centering math, so
the claim's "same vertical position" fails. -/
theorem claim_C6_counterexample :
    (render_text_draws extMetric [65, 10] regionC6 32 (0, 0) 1).map (fun d => d.2.2) ≠
      (render_text_draws extMetric [65] regionC6 32 (0, 0) 1).map (fun d => d.2.2) := by
  have h1 : trim_chars [65] = [65] := by decide
  have h2 : trim_chars ([] : Str) = [] := by decide
  norm_num [render_text_draws, replace_escaped_newline, split_newlines,
    List.enum, List.enumFrom, List.filterMap_cons, h1, h2,
    extMetric, extTriv, regionC6, rtrunc]
  decide

/-- C6 (amended): in a multi-line input a whitespace-only line is skipped
from drawing (and never skipped when the text is a single line), but it
still occupies a vertical slot: the block height counts every split
line, so `"A\n"` draws only `"A"`, yet centered as a two-line block — one
line-spacing-plus-glyph-height total — whereas `"A"` alone is centered as
a one-glyph-height block; the single whitespace line `" "` is drawn. -/
theorem claim_C6_empty_line_skip_keeps_vertical_slot
    (ext : ExtOps) (region : TextRegion) (font_size : ℚ) (offset : ℚ × ℚ)
    (mult : ℚ) (hL : region.alignment = TextAlign.Left) :
    render_text_draws ext [65, 10] region font_size offset mult =
      [([65], (region.x : ℤ) + rtrunc offset.1,
        ((region.y : ℤ) -
          Int.tdiv (rtrunc (((ext.textSize font_size strHg).2 : ℚ) * mult)
            + (ext.textSize font_size strHg).2) 2) + rtrunc offset.2)] ∧
    render_text_draws ext [65] region font_size offset mult =
      [([65], (region.x : ℤ) + rtrunc offset.1,
        ((region.y : ℤ) - Int.tdiv (ext.textSize font_size strHg).2 2)
          + rtrunc offset.2)] ∧
    render_text_draws ext [32] region font_size offset mult =
      [([32], (region.x : ℤ) + rtrunc offset.1,
        ((region.y : ℤ) - Int.tdiv (ext.textSize font_size strHg).2 2)
          + rtrunc offset.2)] := by
  refine ⟨?_, ?_, ?_⟩ <;>
    simp [render_text_draws, replace_escaped_newline, split_newlines,
      trim_chars, is_space, List.enum, List.enumFrom, List.dropWhile, hL]

/-- C6 witness: the amended layout applies at the concrete metrics, and
there the two-line input draws exactly one line while the single
whitespace line is drawn. -/
theorem claim_C6_witness :
    regionC6.alignment = TextAlign.Left ∧
    (render_text_draws extMetric [65, 10] regionC6 32 (0, 0) 1).map (fun d => d.1) = [[65]] ∧
    (render_text_draws extMetric [32] regionC6 32 (0, 0) 1).map (fun d => d.1) = [[32]] := by
  have h := claim_C6_empty_line_skip_keeps_vertical_slot extMetric regionC6 32 (0, 0) 1 rfl
  exact ⟨rfl, by rw [h.1]; simp, by rw [h.2.2]; simp⟩

/-- C8: the texture blend touches only the R, G, B channels of canvas
pixels that lie inside the texture's bounds, each by
`(canvas*(255-alpha) + texture*alpha)/255` with
`alpha = (opacity*255) as u8`; the alpha channel of every pixel and every
pixel outside the texture's bounds are unchanged, the canvas dimensions
are preserved, and a texture smaller or larger than the canvas is no
error (the out-of-bounds lookup simply skips). -/
theorem claim_C8_texture_blend_channels_and_bounds
    (canvas texture : Img) (opacity : ℚ) (x y : ℕ)
    (hx : x < canvas.w) (hy : y < canvas.h) :
    ((x < texture.w ∧ y < texture.h) →
      (apply_texture canvas texture opacity).pix x y =
        ⟨((canvas.pix x y).r * (255 - sat255 (opacity * 255))
            + (texture.pix x y).r * sat255 (opacity * 255)) / 255,
         ((canvas.pix x y).g * (255 - sat255 (opacity * 255))
            + (texture.pix x y).g * sat255 (opacity * 255)) / 255,
         ((canvas.pix x y).b * (255 - sat255 (opacity * 255))
            + (texture.pix x y).b * sat255 (opacity * 255)) / 255,
         (canvas.pix x y).a⟩) ∧
    (¬(x < texture.w ∧ y < texture.h) →
      (apply_texture canvas texture opacity).pix x y = canvas.pix x y) ∧
    ((apply_texture canvas texture opacity).pix x y).a = (canvas.pix x y).a ∧
    (apply_texture canvas texture opacity).w = canvas.w ∧
    (apply_texture canvas texture opacity).h = canvas.h := by
  refine ⟨?_, ?_, ?_, rfl, rfl⟩
  · intro hin
    simp [apply_texture, texture_blend, hx, hy, hin.1, hin.2]
  · intro hout
    have hneg : ¬(x < canvas.w ∧ y < canvas.h ∧ x < texture.w ∧ y < texture.h) :=
      fun hall => hout ⟨hall.2.2.1, hall.2.2.2⟩
    simp only [apply_texture, if_neg hneg]
  · by_cases hc : x < texture.w ∧ y < texture.h
    · simp [apply_texture, hx, hy, hc.1, hc.2]
    · have hneg : ¬(x < canvas.w ∧ y < canvas.h ∧ x < texture.w ∧ y < texture.h) :=
        fun hall => hc ⟨hall.2.2.1, hall.2.2.2⟩
      simp only [apply_texture, if_neg hneg]

/-- C8 witness: the in-bounds blend at the 1×1 canvas and texture with
opacity one half. -/
theorem claim_C8_witness :
    (0 < imgTemplateC7.w ∧ 0 < imgTemplateC7.h ∧
     0 < imgTextureC7.w ∧ 0 < imgTextureC7.h) ∧
    (apply_texture imgTemplateC7 imgTextureC7 (1 / 2)).pix 0 0 =
      ⟨(10 * (255 - sat255 ((1 / 2) * 255)) + 1 * sat255 ((1 / 2) * 255)) / 255,
       (20 * (255 - sat255 ((1 / 2) * 255)) + 2 * sat255 ((1 / 2) * 255)) / 255,
       (30 * (255 - sat255 ((1 / 2) * 255)) + 3 * sat255 ((1 / 2) * 255)) / 255,
       100⟩ :=
  ⟨⟨by decide, by decide, by decide, by decide⟩,
   (claim_C8_texture_blend_channels_and_bounds imgTemplateC7 imgTextureC7
      (1 / 2) 0 0 (by decide) (by decide)).1 ⟨by decide, by decide⟩⟩

/-- Toggling only the `apply_texture` flag does not change the hazard
step. -/
theorem place_hazards_texture_flag_irrel
    (ext : ExtOps) (canvas : Img) (config : LabelConfig)
    (assets : AssetManager) (b : Bool) :
    place_hazards ext canvas { config with apply_texture := b } assets =
      place_hazards ext canvas config assets := rfl

/-- The texture blend at opacity 0 is the identity on the canvas:
`alpha = 0`, so each channel blend is `(c*255 + t*0)/255 = c`. -/
theorem apply_texture_zero_opacity (canvas texture : Img) :
    apply_texture canvas texture 0 = canvas := by
  have halpha : sat255 ((0 : ℚ) * 255) = 0 := by norm_num [sat255]
  have hblend : ∀ c t, texture_blend 0 c t = c := by
    intro c t
    simp [texture_blend]
  unfold apply_texture
  rw [halpha]
  refine congrArg (Img.mk canvas.w canvas.h) ?_
  funext x y
  by_cases hc : x < canvas.w ∧ y < canvas.h ∧ x < texture.w ∧ y < texture.h
  · simp [hc, hblend]
  · simp [hc]

/-- C7 counterexample: a minimal render (alternate style, empty texts, no
hazard, no resize) over a 1×1 template with alpha 100 and a 1×1 texture
with alpha 50, at opacity 1.0: the composed pixel is `(1,2,3,100)` — the
texture's R,G,B but the canvas's alpha — which is not the texture's pixel
`(1,2,3,50)`, refuting "every canvas pixel equal to the texture's
pixel". -/
theorem claim_C7_counterexample :
    (compose extTriv cfgC7 assetsC7).toOption.map (fun out => out.pix 0 0) =
      some ⟨1, 2, 3, 100⟩ ∧
    assetsC7.get_texture.pix 0 0 = ⟨1, 2, 3, 50⟩ ∧
    (⟨1, 2, 3, 100⟩ : Pix) ≠ ⟨1, 2, 3, 50⟩ := by
  refine ⟨?_, rfl, by decide⟩
  norm_num [compose, compose_text_stage, compose_finish_stage,
    place_user_image, place_hazards, render_scp_number, render_text,
    render_text_draws, apply_texture, texture_blend, sat255,
    AssetManager.get_template, AssetManager.get_texture, LABEL_SIZE,
    cfgC7, cfgBase, assetsC7, imgTemplateC7, imgTextureC7, extTriv]
  exact ⟨_, rfl, by norm_num⟩

/-- C7 (amended): enabling the texture overlay with opacity 0.0 yields a
composition identical to the same render with the overlay disabled; with
opacity 1.0 the blend step sets each in-bounds canvas pixel's R, G and B
channels to the texture's, while the alpha channel keeps the canvas's
value (so the pixel equals the texture's only in the visible
channels). -/
theorem claim_C7_texture_opacity_endpoints
    (ext : ExtOps) (config : LabelConfig) (assets : AssetManager)
    (canvas texture : Img) (x y : ℕ)
    (hop : config.texture_opacity = 0)
    (hin : x < canvas.w ∧ y < canvas.h ∧ x < texture.w ∧ y < texture.h) :
    compose ext { config with apply_texture := true } assets =
      compose ext { config with apply_texture := false } assets ∧
    (apply_texture canvas texture 1).pix x y =
      ⟨(texture.pix x y).r, (texture.pix x y).g, (texture.pix x y).b,
       (canvas.pix x y).a⟩ := by
  constructor
  · have key : ∀ b : Bool, compose ext { config with apply_texture := b } assets =
        match place_user_image ext (compose_text_stage ext config assets) config with
        | Except.error e => Except.error e
        | Except.ok canvas3 =>
            Except.ok (compose_finish_stage ext
              { config with apply_texture := b } assets canvas3) := by
      intro b; rfl
    rw [key true, key false]
    cases place_user_image ext (compose_text_stage ext config assets) config with
    | error e => rfl
    | ok canvas3 =>
      simp only [compose_finish_stage, place_hazards_texture_flag_irrel]
      simp [hop, apply_texture_zero_opacity]
  · have h255 : sat255 ((255 : ℚ)) = 255 := by norm_num [sat255]
    simp [apply_texture, texture_blend, h255, hin.1, hin.2.1, hin.2.2.1, hin.2.2.2]

/-- C7 witness: the amended endpoints at concrete assets, a zero-opacity
configuration, and the in-bounds corner of the 1×1 images. -/
theorem claim_C7_witness :
    cfgOp0.texture_opacity = 0 ∧
    (0 < imgTemplateC7.w ∧ 0 < imgTemplateC7.h ∧
     0 < imgTextureC7.w ∧ 0 < imgTextureC7.h) ∧
    (compose extTriv { cfgOp0 with apply_texture := true } assetsTriv =
       compose extTriv { cfgOp0 with apply_texture := false } assetsTriv ∧
     (apply_texture imgTemplateC7 imgTextureC7 1).pix 0 0 =
       ⟨(imgTextureC7.pix 0 0).r, (imgTextureC7.pix 0 0).g,
        (imgTextureC7.pix 0 0).b, (imgTemplateC7.pix 0 0).a⟩) :=
  ⟨rfl, ⟨by decide, by decide, by decide, by decide⟩,
   claim_C7_texture_opacity_endpoints extTriv cfgOp0 assetsTriv
     imgTemplateC7 imgTextureC7 0 0 rfl
     ⟨by decide, by decide, by decide, by decide⟩⟩

/-- C2: `compose` never applies the burn mask.  Its result is unchanged
when `apply_burn` is enabled and every burn parameter is replaced by
arbitrary values: no step of the composition pipeline reads any of them,
and `generate_burn_mask` has no caller, so the canvas is never darkened —
the composition behaviour the claim describes is absent from the code. -/
theorem claim_C2_compose_ignores_burn_parameters
    (ext : ExtOps) (config : LabelConfig) (assets : AssetManager)
    (b : Bool) (bt : BurnType) (amt scale det soft irr ch : ℚ) (seed : ℕ)
    (mult blendw tfreq tstr : ℚ) :
    compose ext
      { config with apply_burn := b, burn_type := bt, burn_amount := amt,
                    burn_scale := scale, burn_detail := det,
                    burn_edge_softness := soft, burn_irregularity := irr,
                    burn_char := ch, burn_seed := seed,
                    burn_scale_multiplier := mult, burn_detail_blend := blendw,
                    burn_turbulence_freq := tfreq,
                    burn_turbulence_strength := tstr } assets =
      compose ext config assets := rfl

/-- C4: `compose` returns an error only when opening the configured
user-supplied image file fails: any returned error is the
`ImageLoading` wrapper around the decoder's message, produced in the
normal style with a configured image path whose decode failed; and a
missing `(class, hazard)` icon degrades to the transparent placeholder
instead of failing.  (Font initialisation happens in
`LabelComposer::new`, before `compose`; the `Except` result type returns
either the error or the finished image, never a partial image.) -/
theorem claim_C4_compose_error_only_from_user_image
    (ext : ExtOps) (config : LabelConfig) (assets : AssetManager) :
    (∀ e, compose ext config assets = Except.error e →
      config.use_alternate_style = false ∧
      ∃ path msg, config.image_path = some path ∧
        ext.openImage path = Except.error msg ∧
        e = LabelError.ImageLoading ("Failed to open user image: " ++ msg)) ∧
    (∀ class_type hazard, assets.hazard_icons class_type hazard = none →
      assets.get_hazard_icon class_type hazard = assets.placeholder) := by
  constructor
  · intro e he
    unfold compose at he
    unfold place_user_image at he
    by_cases halt : config.use_alternate_style
    · simp [halt] at he
    · cases hpath : config.image_path with
      | none => simp [halt, hpath] at he
      | some path =>
        cases hopen : ext.openImage path with
        | ok img => simp [halt, hpath, hopen] at he
        | error msg =>
          simp [halt, hpath, hopen] at he
          exact ⟨by simp [halt], path, msg, rfl, hopen, he.symm⟩
  · intro class_type hazard hmiss
    simp [AssetManager.get_hazard_icon, hmiss]

/-- C4 witness: with a decoder that fails with message `"missing"` and a
configuration pointing at `photo.png`, `compose` returns exactly the
`ImageLoading` error, and the missing icon lookup returns the
placeholder. -/
theorem claim_C4_witness :
    (cfgC4.use_alternate_style = false ∧
     ∃ path msg, cfgC4.image_path = some path ∧
       extTriv.openImage path = Except.error msg ∧
       LabelError.ImageLoading ("Failed to open user image: " ++ "missing") =
         LabelError.ImageLoading ("Failed to open user image: " ++ msg)) ∧
    assetsTriv.get_hazard_icon ClassType.Safe Hazard.Cognitohazard =
      assetsTriv.placeholder :=
  ⟨(claim_C4_compose_error_only_from_user_image extTriv cfgC4 assetsTriv).1
      (LabelError.ImageLoading ("Failed to open user image: " ++ "missing")) rfl,
   (claim_C4_compose_error_only_from_user_image extTriv cfgC4 assetsTriv).2
      ClassType.Safe Hazard.Cognitohazard rfl⟩
